import Mathlib

/-!
Verification of the financial calculation engine of an educational
financial-assistant repository.

The engine's Python routines are embedded shallowly over `ℚ`:

* Python floats are modelled as exact rationals (the spec's numerical
  claims are phrased "in exact arithmetic", with a tolerance absorbing
  floating rounding).
* Python `int` parameters are modelled as `ℤ` (ages, month counts);
  loop iteration counts use `Int.toNat`, matching `range(1, t + 1)`
  which is empty for `t ≤ 0`.
* A Python `raise` (both `ValueError` validation failures and runtime
  `ZeroDivisionError`) is modelled as `Except.error` with a constructor
  per raise site; float division by zero and `0.0 ** negative` raise in
  Python, so the embedding checks those divisors/bases explicitly where
  they can vanish.
* Loops with mutable accumulators become structural recursion on the
  remaining iteration count, threading the accumulators.

Embedded functions (keeping the source names):
`FinancialCalculators.compound_interest`, `loan_calculator`,
`_calculate_price` (as `calculate_price`), `_calculate_sac`
(as `calculate_sac`), `retirement_calculator` from `src/calculators.py`;
`FinancialCalculators.calcular_aposentadoria` from
`src/calculators/calculators.py`; and
`RetirementCalculator.calculate_retirement_savings` from
`src/calculators/financial_calculators.py`.
-/

namespace FinAssist

/-- One error constructor per `raise` site of the embedded code, plus one
for Python's runtime `ZeroDivisionError`. -/
inductive CalcError where
  | valuesMustBePositive
  | invalidParameters
  | invalidSystem
  | invalidAgeRange
  | divisionByZero
deriving DecidableEq, Inhabited

/-- One entry of `monthly_breakdown` in `compound_interest`. -/
structure MonthRecord where
  month : ℕ
  contribution : ℚ
  interest : ℚ
  balance : ℚ
deriving DecidableEq, Inhabited

/-- `InvestmentResult` dataclass of `src/calculators.py`. -/
structure InvestmentResult where
  initial_amount : ℚ
  monthly_contribution : ℚ
  interest_rate : ℚ
  months : ℤ
  final_amount : ℚ
  total_invested : ℚ
  total_interest : ℚ
  monthly_breakdown : List MonthRecord
deriving DecidableEq, Inhabited

/-- One entry of `installments` in `_calculate_price` / `_calculate_sac`. -/
structure InstallmentRecord where
  installment : ℕ
  payment : ℚ
  principal : ℚ
  interest : ℚ
  balance : ℚ
deriving DecidableEq, Inhabited

/-- `LoanResult` dataclass of `src/calculators.py`. -/
structure LoanResult where
  loan_amount : ℚ
  interest_rate : ℚ
  months : ℤ
  monthly_payment : ℚ
  total_amount : ℚ
  total_interest : ℚ
  installments : List InstallmentRecord
deriving DecidableEq, Inhabited

/-- The dictionary returned by `retirement_calculator`. -/
structure RetirementResult where
  years_until_retirement : ℤ
  total_contributions : ℚ
  investment_growth : ℚ
  retirement_fund : ℚ
  estimated_monthly_income : ℚ
  total_return_percentage : ℚ
deriving DecidableEq, Inhabited

/-- The dictionary returned by `calcular_aposentadoria`. -/
structure AposentadoriaResult where
  montante_necessario : ℚ
  aporte_mensal_necessario : ℚ
  anos_ate_aposentar : ℤ
  anos_aposentado : ℤ
  total_a_investir : ℚ
  taxa_real : ℚ
deriving DecidableEq, Inhabited

/-- The dictionary returned by `calculate_retirement_savings`. -/
structure RetirementSavingsResult where
  capital_needed : ℚ
  monthly_saving_required : ℚ
  total_to_contribute : ℚ
  years_to_retirement : ℤ
  years_in_retirement : ℤ
deriving DecidableEq, Inhabited

/-- The `for month in range(1, time + 1)` loop of `compound_interest`:
`k` iterations remain, `month` is the current (1-based) month, `time` the
total month count; accumulators are the running balance and
`total_invested`.  Returns (final balance, total invested, breakdown). -/
def ciLoop (c mr : ℚ) (time : ℕ) : ℚ → ℚ → ℕ → ℕ → ℚ × ℚ × List MonthRecord
  | amount, invested, _, 0 => (amount, invested, [])
  | amount, invested, month, k+1 =>
    let a2 := amount + amount * mr + (if month < time then c else 0)
    let inv2 := invested + (if month < time then c else 0)
    let r := ciLoop c mr time a2 inv2 (month + 1) k
    (r.1, r.2.1, ⟨month, (if month < time then c else 0), amount * mr, a2⟩ :: r.2.2)

/-- The `InvestmentResult` built by `compound_interest` after validation. -/
def compoundResult (principal rate : ℚ) (time : ℕ) (contribution : ℚ) :
    InvestmentResult :=
  let monthly_rate := rate / 100 / 12
  let r := ciLoop contribution monthly_rate time principal principal 1 time
  { initial_amount := principal
    monthly_contribution := contribution
    interest_rate := rate
    months := time
    final_amount := r.1
    total_invested := r.2.1
    total_interest := r.1 - r.2.1
    monthly_breakdown := r.2.2 }

/-- `FinancialCalculators.compound_interest` (src/calculators.py).  The
unused `frequency` string parameter is omitted. -/
def compound_interest (principal rate : ℚ) (time : ℤ) (contribution : ℚ) :
    Except CalcError InvestmentResult :=
  if principal < 0 ∨ rate < 0 ∨ time < 0 ∨ contribution < 0 then
    .error .valuesMustBePositive
  else
    .ok (compoundResult principal rate time.toNat contribution)

/-- The `for month in range(1, months + 1)` loop of `_calculate_price`. -/
def priceLoop (pmt mr : ℚ) : ℚ → ℕ → ℕ → List InstallmentRecord
  | _, _, 0 => []
  | balance, month, k+1 =>
    ⟨month, pmt, pmt - balance * mr, balance * mr,
      max 0 (balance - (pmt - balance * mr))⟩ ::
      priceLoop pmt mr (balance - (pmt - balance * mr)) (month + 1) k

/-- `FinancialCalculators._calculate_price` (src/calculators.py), taking
the already-converted periodic rate, as in the source. -/
def calculate_price (loan_amount mr : ℚ) (months : ℕ) : LoanResult :=
  let monthly_payment :=
    if mr = 0 then loan_amount / (months : ℚ)
    else loan_amount * (mr * (1 + mr) ^ months) / ((1 + mr) ^ months - 1)
  let inst := priceLoop monthly_payment mr loan_amount 1 months
  let total_amount := monthly_payment * (months : ℚ)
  { loan_amount := loan_amount
    interest_rate := mr * 12 * 100
    months := months
    monthly_payment := monthly_payment
    total_amount := total_amount
    total_interest := total_amount - loan_amount
    installments := inst }

/-- The `for month in range(1, months + 1)` loop of `_calculate_sac`. -/
def sacLoop (amort mr : ℚ) : ℚ → ℕ → ℕ → List InstallmentRecord
  | _, _, 0 => []
  | balance, month, k+1 =>
    ⟨month, amort + balance * mr, amort, balance * mr, max 0 (balance - amort)⟩ ::
      sacLoop amort mr (balance - amort) (month + 1) k

/-- `FinancialCalculators._calculate_sac` (src/calculators.py).  The
source accumulates `total_paid += payment` inside the loop; here it is
the sum of the payments of the very records the loop appends, which is
the same exact rational. -/
def calculate_sac (loan_amount mr : ℚ) (months : ℕ) : LoanResult :=
  let amort := loan_amount / (months : ℚ)
  let inst := sacLoop amort mr loan_amount 1 months
  let total_paid := (inst.map InstallmentRecord.payment).sum
  { loan_amount := loan_amount
    interest_rate := mr * 12 * 100
    months := months
    monthly_payment := total_paid / (months : ℚ)
    total_amount := total_paid
    total_interest := total_paid - loan_amount
    installments := inst }

/-- `FinancialCalculators.loan_calculator` (src/calculators.py). -/
def loan_calculator (loan_amount annual_rate : ℚ) (months : ℤ)
    (system : String) : Except CalcError LoanResult :=
  if loan_amount ≤ 0 ∨ annual_rate < 0 ∨ months ≤ 0 then
    .error .invalidParameters
  else
    let monthly_rate := annual_rate / 100 / 12
    if system.toUpper = "PRICE" then
      .ok (calculate_price loan_amount monthly_rate months.toNat)
    else if system.toUpper = "SAC" then
      .ok (calculate_sac loan_amount monthly_rate months.toNat)
    else
      .error .invalidSystem

/-- `FinancialCalculators.retirement_calculator` (src/calculators.py).
`0.04` is the exact rational `4/100`. -/
def retirement_calculator (current_age retirement_age : ℤ)
    (monthly_contribution expected_return current_savings : ℚ) :
    Except CalcError RetirementResult :=
  if retirement_age ≤ current_age then .error .invalidAgeRange
  else
    let months := (retirement_age - current_age) * 12
    match compound_interest current_savings expected_return months
        monthly_contribution with
    | .error e => .error e
    | .ok result =>
      .ok { years_until_retirement := retirement_age - current_age
            total_contributions := result.total_invested
            investment_growth := result.total_interest
            retirement_fund := result.final_amount
            estimated_monthly_income := result.final_amount * (4 / 100) / 12
            total_return_percentage :=
              if 0 < result.total_invested then
                result.total_interest / result.total_invested * 100
              else 0 }

/-- `FinancialCalculators.calcular_aposentadoria`
(src/calculators/calculators.py).  The `.error .divisionByZero` branches
are exactly the places where the Python source raises a runtime
`ZeroDivisionError`: the division by `1 + taxa_inflacao/100` inside
`taxa_real`, the division of `montante_necessario` by `taxa_real_mensal`
(unguarded in the source), and `0.0 ** negative` inside the annuity
power.  The division in the `taxa_real_mensal > 0` branch cannot vanish
there and the final `else` divides by `meses_ate_aposentar ≥ 12`. -/
def calcular_aposentadoria (idade_atual idade_aposentadoria : ℤ)
    (renda_desejada valor_atual taxa_rendimento taxa_inflacao : ℚ)
    (expectativa_vida : ℤ) :
    Except CalcError AposentadoriaResult :=
  if idade_aposentadoria ≤ idade_atual then .error .invalidAgeRange
  else
    let anos_ate := idade_aposentadoria - idade_atual
    let anos_apos := expectativa_vida - idade_aposentadoria
    let meses_ate := anos_ate * 12
    let meses_apos := anos_apos * 12
    if 1 + taxa_inflacao / 100 = 0 then .error .divisionByZero
    else
      let taxa_real :=
        ((1 + taxa_rendimento / 100) / (1 + taxa_inflacao / 100) - 1) * 100
      let trm := taxa_real / 12 / 100
      if trm = 0 then .error .divisionByZero
      else if 1 + trm = 0 ∧ 0 < meses_apos then .error .divisionByZero
      else
        let montante := renda_desejada * ((1 - (1 + trm) ^ (-meses_apos)) / trm)
        let aporte :=
          if 0 < trm then
            let vfa := valor_atual * (1 + trm) ^ meses_ate
            let faltante := montante - vfa
            if 0 < faltante then
              faltante / (((1 + trm) ^ meses_ate - 1) / trm)
            else 0
          else (montante - valor_atual) / (meses_ate : ℚ)
        .ok { montante_necessario := montante
              aporte_mensal_necessario := aporte
              anos_ate_aposentar := anos_ate
              anos_aposentado := anos_apos
              total_a_investir := aporte * (meses_ate : ℚ) + valor_atual
              taxa_real := taxa_real }

/-- `RetirementCalculator.calculate_retirement_savings`
(src/calculators/financial_calculators.py).  `life_expectancy` is the
literal 85.  `.error .divisionByZero` marks the divisions that raise a
`ZeroDivisionError` in Python when their divisor is zero; the
`capital_needed` division is guarded by `monthly_rate > 0` in the source
itself (its power's base then exceeds 1, so no further check arises). -/
def calculate_retirement_savings (current_age retirement_age : ℤ)
    (monthly_income_needed annual_return inflation : ℚ) :
    Except CalcError RetirementSavingsResult :=
  if 1 + inflation / 100 = 0 then .error .divisionByZero
  else
    let years_to := retirement_age - current_age
    let years_in := 85 - retirement_age
    let real_return :=
      ((1 + annual_return / 100) / (1 + inflation / 100) - 1) * 100
    let monthly_rate := real_return / 100 / 12
    let months_retirement := years_in * 12
    let capital_needed :=
      if 0 < monthly_rate then
        monthly_income_needed *
          ((1 - (1 + monthly_rate) ^ (-months_retirement)) / monthly_rate)
      else monthly_income_needed * (months_retirement : ℚ)
    let mrs := annual_return / 100 / 12
    let months_saving := years_to * 12
    if 0 < mrs then
      if (1 + mrs) ^ months_saving - 1 = 0 then .error .divisionByZero
      else
        let saving := capital_needed * mrs / ((1 + mrs) ^ months_saving - 1)
        .ok { capital_needed := capital_needed
              monthly_saving_required := saving
              total_to_contribute := saving * (months_saving : ℚ)
              years_to_retirement := years_to
              years_in_retirement := years_in }
    else
      if (months_saving : ℚ) = 0 then .error .divisionByZero
      else
        let saving := capital_needed / (months_saving : ℚ)
        .ok { capital_needed := capital_needed
              monthly_saving_required := saving
              total_to_contribute := saving * (months_saving : ℚ)
              years_to_retirement := years_to
              years_in_retirement := years_in }

/-! ### Lemmas about the compound-interest loop -/

theorem ciLoop_length (c mr : ℚ) (time : ℕ) :
    ∀ (k : ℕ) (a inv : ℚ) (month : ℕ),
      (ciLoop c mr time a inv month k).2.2.length = k := by
  intro k
  induction k with
  | zero => intro a inv month; rfl
  | succ k ih =>
    intro a inv month
    simp only [ciLoop, List.length_cons, ih]

theorem ciLoop_getD_contribution (c mr : ℚ) (time : ℕ) :
    ∀ (k : ℕ) (a inv : ℚ) (month i : ℕ), i < k →
      ((ciLoop c mr time a inv month k).2.2.getD i default).contribution =
        if month + i < time then c else 0 := by
  intro k
  induction k with
  | zero => intro a inv month i hi; omega
  | succ k ih =>
    intro a inv month i hi
    match i with
    | 0 => simp [ciLoop]
    | j + 1 =>
      have hj : j < k := by omega
      simp only [ciLoop, List.getD_cons_succ]
      rw [ih _ _ (month + 1) j hj]
      have harith : month + 1 + j = month + (j + 1) := by omega
      rw [harith]

theorem ciLoop_getD_balance_zero (c mr : ℚ) (time : ℕ)
    (k : ℕ) (a inv : ℚ) (month : ℕ) (hk : 0 < k) :
    ((ciLoop c mr time a inv month k).2.2.getD 0 default).balance =
      a + a * mr + (if month < time then c else 0) := by
  match k, hk with
  | k + 1, _ => simp [ciLoop]

theorem ciLoop_getD_balance_succ (c mr : ℚ) (time : ℕ) :
    ∀ (k : ℕ) (a inv : ℚ) (month i : ℕ), i + 1 < k →
      ((ciLoop c mr time a inv month k).2.2.getD (i + 1) default).balance =
        ((ciLoop c mr time a inv month k).2.2.getD i default).balance +
          ((ciLoop c mr time a inv month k).2.2.getD i default).balance * mr +
          (if month + i + 1 < time then c else 0) := by
  intro k
  induction k with
  | zero => intro a inv month i hi; omega
  | succ k ih =>
    intro a inv month i hi
    match i with
    | 0 =>
      simp only [ciLoop, List.getD_cons_succ, List.getD_cons_zero]
      rw [ciLoop_getD_balance_zero c mr time k _ _ (month + 1) (by omega)]
    | j + 1 =>
      have hj : j + 1 < k := by omega
      simp only [ciLoop, List.getD_cons_succ]
      rw [ih _ _ (month + 1) j hj]
      have harith : month + 1 + j + 1 = month + (j + 1) + 1 := by omega
      rw [harith]

theorem ciLoop_invested (c mr : ℚ) (time : ℕ) :
    ∀ (k : ℕ) (a inv : ℚ) (month : ℕ), month + k = time + 1 →
      (ciLoop c mr time a inv month k).2.1 = inv + c * ((k - 1 : ℕ) : ℚ) := by
  intro k
  induction k with
  | zero => intro a inv month _; simp [ciLoop]
  | succ k ih =>
    intro a inv month hmk
    match k with
    | 0 =>
      have hm : ¬ month < time := by omega
      simp [ciLoop, hm]
    | k + 1 =>
      have hm : month < time := by omega
      have hrec := ih (a + a * mr + (if month < time then c else 0))
        (inv + (if month < time then c else 0)) (month + 1) (by omega)
      show (ciLoop c mr time (a + a * mr + (if month < time then c else 0))
          (inv + (if month < time then c else 0)) (month + 1) (k + 1)).2.1 =
        inv + c * ((k + 1 + 1 - 1 : ℕ) : ℚ)
      rw [hrec, if_pos hm]
      have hk1 : ((k + 1 - 1 : ℕ) : ℚ) = (k : ℚ) := by push_cast; ring
      have hk2 : ((k + 1 + 1 - 1 : ℕ) : ℚ) = (k : ℚ) + 1 := by push_cast; ring
      rw [hk1, hk2]; ring

theorem ciLoop_balance_lb (c mr : ℚ) (time : ℕ) (hmr : 0 ≤ mr) (hc : 0 ≤ c) :
    ∀ (k : ℕ) (a inv : ℚ) (month i : ℕ), 0 ≤ a → i < k →
      a ≤ ((ciLoop c mr time a inv month k).2.2.getD i default).balance := by
  intro k
  induction k with
  | zero => intro a inv month i _ hi; omega
  | succ k ih =>
    intro a inv month i ha hi
    have hstep : a ≤ a + a * mr + (if month < time then c else 0) := by
      have h1 : 0 ≤ a * mr := mul_nonneg ha hmr
      have h2 : (0:ℚ) ≤ if month < time then c else 0 := by
        split <;> simp [hc]
      linarith
    match i with
    | 0 => simpa [ciLoop] using hstep
    | j + 1 =>
      have hj : j < k := by omega
      have ha2 : 0 ≤ a + a * mr + (if month < time then c else 0) :=
        le_trans ha hstep
      simp only [ciLoop, List.getD_cons_succ]
      exact le_trans hstep (ih _ _ (month + 1) j ha2 hj)

theorem ciLoop_balance_mono (c mr : ℚ) (time : ℕ) (hmr : 0 ≤ mr) (hc : 0 ≤ c) :
    ∀ (k : ℕ) (a inv : ℚ) (month i : ℕ), 0 ≤ a → i + 1 < k →
      ((ciLoop c mr time a inv month k).2.2.getD i default).balance ≤
        ((ciLoop c mr time a inv month k).2.2.getD (i + 1) default).balance := by
  intro k
  induction k with
  | zero => intro a inv month i _ hi; omega
  | succ k ih =>
    intro a inv month i ha hi
    have ha2 : 0 ≤ a + a * mr + (if month < time then c else 0) := by
      have h1 : 0 ≤ a * mr := mul_nonneg ha hmr
      have h2 : (0:ℚ) ≤ if month < time then c else 0 := by
        split <;> simp [hc]
      linarith
    match i with
    | 0 =>
      simp only [ciLoop, List.getD_cons_succ, List.getD_cons_zero]
      exact ciLoop_balance_lb c mr time hmr hc k _ _ (month + 1) 0 ha2 (by omega)
    | j + 1 =>
      have hj : j + 1 < k := by omega
      simp only [ciLoop, List.getD_cons_succ]
      exact ih _ _ (month + 1) j ha2 hj

/-! ### Lemmas about the SAC loop -/

theorem sacLoop_length (amort mr : ℚ) :
    ∀ (k : ℕ) (b : ℚ) (month : ℕ), (sacLoop amort mr b month k).length = k := by
  intro k
  induction k with
  | zero => intro b month; rfl
  | succ k ih =>
    intro b month
    simp only [sacLoop, List.length_cons, ih]

theorem sacLoop_getD (amort mr : ℚ) :
    ∀ (k : ℕ) (b : ℚ) (month i : ℕ), i < k →
      (sacLoop amort mr b month k).getD i default =
        ⟨month + i, amort + (b - (i : ℚ) * amort) * mr, amort,
          (b - (i : ℚ) * amort) * mr,
          max 0 (b - ((i : ℚ) + 1) * amort)⟩ := by
  intro k
  induction k with
  | zero => intro b month i hi; omega
  | succ k ih =>
    intro b month i hi
    match i with
    | 0 =>
      simp only [sacLoop, List.getD_cons_zero]
      have h1 : b - (0 : ℚ) * amort = b := by ring
      have h2 : b - ((0 : ℚ) + 1) * amort = b - amort := by ring
      rw [Nat.cast_zero, h1, h2, Nat.add_zero]
    | j + 1 =>
      have hj : j < k := by omega
      simp only [sacLoop, List.getD_cons_succ]
      rw [ih _ (month + 1) j hj]
      have hmonth : month + 1 + j = month + (j + 1) := by omega
      have hpay : b - amort - (j : ℚ) * amort = b - ((j + 1 : ℕ) : ℚ) * amort := by
        push_cast; ring
      have hbal : b - amort - ((j : ℚ) + 1) * amort =
          b - (((j + 1 : ℕ) : ℚ) + 1) * amort := by push_cast; ring
      rw [hmonth, hpay, hbal]

theorem sacLoop_sum_payment (amort mr : ℚ) :
    ∀ (k : ℕ) (b : ℚ) (month : ℕ),
      ((sacLoop amort mr b month k).map InstallmentRecord.payment).sum =
        (k : ℚ) * amort + mr * ((k : ℚ) * b) -
          mr * amort * ((k : ℚ) * ((k : ℚ) - 1)) / 2 := by
  intro k
  induction k with
  | zero => intro b month; simp [sacLoop]
  | succ k ih =>
    intro b month
    simp only [sacLoop, List.map_cons, List.sum_cons]
    rw [ih (b - amort) (month + 1)]
    push_cast
    ring

/-! ### Lemmas about the PRICE loop -/

/-- The balance recurrence of the `_calculate_price` loop, iterated:
`balance -= (payment - balance * rate)` applied `k` times. -/
def priceIter (pmt mr : ℚ) : ℚ → ℕ → ℚ
  | b, 0 => b
  | b, k+1 => priceIter pmt mr (b - (pmt - b * mr)) k

theorem priceLoop_length (pmt mr : ℚ) :
    ∀ (k : ℕ) (b : ℚ) (month : ℕ), (priceLoop pmt mr b month k).length = k := by
  intro k
  induction k with
  | zero => intro b month; rfl
  | succ k ih =>
    intro b month
    simp only [priceLoop, List.length_cons, ih]

theorem priceLoop_sum_principal (pmt mr : ℚ) :
    ∀ (k : ℕ) (b : ℚ) (month : ℕ),
      ((priceLoop pmt mr b month k).map InstallmentRecord.principal).sum =
        b - priceIter pmt mr b k := by
  intro k
  induction k with
  | zero => intro b month; simp [priceLoop, priceIter]
  | succ k ih =>
    intro b month
    simp only [priceLoop, List.map_cons, List.sum_cons, priceIter]
    rw [ih (b - (pmt - b * mr)) (month + 1)]
    ring

theorem priceIter_zero_rate (pmt : ℚ) :
    ∀ (k : ℕ) (b : ℚ), priceIter pmt 0 b k = b - (k : ℚ) * pmt := by
  intro k
  induction k with
  | zero => intro b; simp [priceIter]
  | succ k ih =>
    intro b
    simp only [priceIter]
    rw [ih]
    push_cast
    ring

theorem priceIter_closed (pmt mr : ℚ) (hmr : mr ≠ 0) :
    ∀ (k : ℕ) (b : ℚ),
      priceIter pmt mr b k = (b - pmt / mr) * (1 + mr) ^ k + pmt / mr := by
  intro k
  induction k with
  | zero => intro b; simp [priceIter]
  | succ k ih =>
    intro b
    simp only [priceIter]
    rw [ih]
    rw [pow_succ]
    field_simp
    ring

/-! ### Helper lemmas -/

theorem compound_interest_ok (p r : ℚ) (t : ℤ) (c : ℚ)
    (hp : 0 ≤ p) (hr : 0 ≤ r) (ht : 0 ≤ t) (hc : 0 ≤ c) :
    compound_interest p r t c = .ok (compoundResult p r t.toNat c) := by
  have h : ¬(p < 0 ∨ r < 0 ∨ t < 0 ∨ c < 0) := by
    push_neg
    exact ⟨hp, hr, ht, hc⟩
  rw [compound_interest, if_neg h]

theorem compound_interest_ne_ageRange (p r : ℚ) (t : ℤ) (c : ℚ) :
    compound_interest p r t c ≠ .error .invalidAgeRange := by
  rw [compound_interest]
  split <;> simp

theorem one_lt_one_add_zpow (x : ℚ) (hx : 0 < x) (m : ℤ) (hm : 0 < m) :
    1 < (1 + x) ^ m := by
  have h1 : (1:ℚ) < 1 + x := by linarith
  have hm2 : m = (m.toNat : ℤ) := (Int.toNat_of_nonneg hm.le).symm
  rw [hm2, zpow_natCast]
  exact one_lt_pow h1 (by omega)

/-- In exact arithmetic the PRICE balance recurrence, run for the full
term with the payment `_calculate_price` chooses, ends at exactly 0. -/
theorem price_final_balance_zero (P mr : ℚ) (n : ℕ)
    (hmr : 0 ≤ mr) (hn : 1 ≤ n) :
    priceIter (if mr = 0 then P / (n : ℚ)
      else P * (mr * (1 + mr) ^ n) / ((1 + mr) ^ n - 1)) mr P n = 0 := by
  have hn0 : ((n : ℚ)) ≠ 0 := by
    exact_mod_cast Nat.pos_of_ne_zero (by omega) |>.ne'
  by_cases h0 : mr = 0
  · rw [if_pos h0, h0, priceIter_zero_rate]
    field_simp
  · have hpos : 0 < mr := lt_of_le_of_ne hmr (Ne.symm h0)
    rw [if_neg h0, priceIter_closed _ _ h0]
    have hf : 1 < (1 + mr) ^ n := one_lt_pow (by linarith) (by omega)
    have hf1 : (1 + mr) ^ n - 1 ≠ 0 := sub_ne_zero.mpr (ne_of_gt hf)
    field_simp
    ring

/-! ### Claim theorems: PRICE and SAC -/

/-- Claim C2: for every valid PRICE schedule (principal > 0, periodic
rate ≥ 0, term ≥ 1), the sum over all installment records of the
principal portion equals the original principal — exactly, in exact
arithmetic, hence in particular within 1e-6 relative tolerance. -/
theorem price_sum_principal (P mr : ℚ) (n : ℕ)
    (hP : 0 < P) (hmr : 0 ≤ mr) (hn : 1 ≤ n) :
    (((calculate_price P mr n).installments.map InstallmentRecord.principal).sum
        = P) ∧
      |((calculate_price P mr n).installments.map
          InstallmentRecord.principal).sum - P| ≤ P * (1 / 1000000) := by
  have hsum : ((calculate_price P mr n).installments.map
      InstallmentRecord.principal).sum = P := by
    simp only [calculate_price]
    rw [priceLoop_sum_principal, price_final_balance_zero P mr n hmr hn]
    ring
  refine ⟨hsum, ?_⟩
  rw [hsum]
  simp only [sub_self, abs_zero]
  positivity

/-- Claim C5: zero-rate PRICE — the fixed installment is exactly
principal / term, produced by the `monthly_rate == 0` branch rather
than the annuity formula, with no division by zero. -/
theorem price_zero_rate_payment (P : ℚ) (n : ℕ) (hP : 0 < P) (hn : 1 ≤ n) :
    (calculate_price P 0 n).monthly_payment = P / (n : ℚ) := by
  simp [calculate_price]

/-- Claim C4: for every valid SAC schedule (principal > 0, term ≥ 1),
the principal (amortization) portion is the same `P / n` in every
record, and for rate > 0 the installment payments strictly decrease. -/
theorem sac_amortization_decreasing (P mr : ℚ) (n : ℕ)
    (hP : 0 < P) (hn : 1 ≤ n) :
    (∀ i, i < (calculate_sac P mr n).installments.length →
      ((calculate_sac P mr n).installments.getD i default).principal
        = P / (n : ℚ)) ∧
    (0 < mr → ∀ i, i + 1 < (calculate_sac P mr n).installments.length →
      ((calculate_sac P mr n).installments.getD (i + 1) default).payment <
        ((calculate_sac P mr n).installments.getD i default).payment) := by
  have hnpos : (0:ℚ) < (n : ℚ) := by exact_mod_cast Nat.pos_of_ne_zero (by omega)
  have hamort : 0 < P / (n : ℚ) := div_pos hP hnpos
  have hlen : (calculate_sac P mr n).installments.length = n := by
    simp only [calculate_sac]
    exact sacLoop_length _ _ n P 1
  constructor
  · intro i hi
    rw [hlen] at hi
    simp only [calculate_sac]
    rw [sacLoop_getD _ _ n P 1 i hi]
  · intro hr i hi
    rw [hlen] at hi
    simp only [calculate_sac]
    rw [sacLoop_getD _ _ n P 1 (i + 1) (by omega),
      sacLoop_getD _ _ n P 1 i (by omega)]
    simp only []
    push_cast
    nlinarith [mul_pos hamort hr]

/-- Claim C10, counterexample to the claim as stated: for a one-period
SAC loan with positive rate (principal 1200, periodic rate 1/100,
term 1) the `monthly_payment` equals the single installment's payment,
so it does not lie strictly between the last and first payments. -/
theorem sac_mean_not_strict_term_one :
    (calculate_sac 1200 (1/100) 1).installments.length = 1 ∧
    (calculate_sac 1200 (1/100) 1).monthly_payment = 1212 ∧
    ((calculate_sac 1200 (1/100) 1).installments.getD 0 default).payment = 1212 ∧
    ¬(((calculate_sac 1200 (1/100) 1).installments.getD 0 default).payment <
        (calculate_sac 1200 (1/100) 1).monthly_payment ∧
      (calculate_sac 1200 (1/100) 1).monthly_payment <
        ((calculate_sac 1200 (1/100) 1).installments.getD 0 default).payment) := by
  refine ⟨by norm_num [calculate_sac, sacLoop], ?_, ?_, ?_⟩
  · norm_num [calculate_sac, sacLoop]
  · norm_num [calculate_sac, sacLoop]
  · intro h
    exact absurd (h.1.trans h.2) (lt_irrefl _)

/-- Claim C10, amended: for every valid SAC loan the `monthly_payment`
field is the arithmetic mean of the per-period payments (their sum
divided by the term), and for term ≥ 2 and rate > 0 it lies strictly
between the last and the first installment payments. -/
theorem sac_mean_payment (P mr : ℚ) (n : ℕ) (hP : 0 < P) (hn : 2 ≤ n) :
    ((calculate_sac P mr n).monthly_payment =
      ((calculate_sac P mr n).installments.map
        InstallmentRecord.payment).sum / (n : ℚ)) ∧
    ((calculate_sac P mr n).installments.length = n) ∧
    (0 < mr →
      ((calculate_sac P mr n).installments.getD (n - 1) default).payment <
          (calculate_sac P mr n).monthly_payment ∧
        (calculate_sac P mr n).monthly_payment <
          ((calculate_sac P mr n).installments.getD 0 default).payment) := by
  have hnpos : (0:ℚ) < (n : ℚ) := by exact_mod_cast Nat.pos_of_ne_zero (by omega)
  have hamort : 0 < P / (n : ℚ) := div_pos hP hnpos
  have hn2 : (2:ℚ) ≤ (n : ℚ) := by exact_mod_cast hn
  have hlen : (calculate_sac P mr n).installments.length = n := by
    simp only [calculate_sac]
    exact sacLoop_length _ _ n P 1
  refine ⟨rfl, hlen, ?_⟩
  intro hr
  have hAm := mul_pos hamort hr
  simp only [calculate_sac]
  rw [sacLoop_getD _ _ n P 1 (n - 1) (by omega),
    sacLoop_getD _ _ n P 1 0 (by omega),
    sacLoop_sum_payment]
  simp only []
  have hcast : ((n - 1 : ℕ) : ℚ) = (n : ℚ) - 1 := by
    have : (1:ℕ) ≤ n := by omega
    push_cast [this]
    ring
  rw [hcast]
  constructor
  · rw [lt_div_iff hnpos]
    nlinarith [mul_pos hAm (show (0:ℚ) < (n : ℚ) * ((n : ℚ) - 1) by nlinarith)]
  · rw [div_lt_iff hnpos]
    nlinarith [mul_pos hAm (show (0:ℚ) < (n : ℚ) * ((n : ℚ) - 1) by nlinarith)]

/-! ### Claim theorems: validation and compound growth -/

/-- Claim C3, counterexample to the claim as stated: `compound_interest`
accepts principal = 0 (and also term = 0) and returns a full projection,
whereas the claim says principal ≤ 0 and term < 1 fail validation for
every engine operation. -/
theorem compound_interest_accepts_zero :
    compound_interest 0 5 12 0 = .ok (compoundResult 0 5 12 0) ∧
    compound_interest 1000 5 0 100 = .ok (compoundResult 1000 5 0 100) := by
  constructor
  · rw [compound_interest_ok 0 5 12 0 le_rfl (by norm_num) (by norm_num) le_rfl]
    rfl
  · rw [compound_interest_ok 1000 5 0 100 (by norm_num) (by norm_num) le_rfl
      (by norm_num)]
    rfl

/-- Claim C3, amended: `loan_calculator` rejects principal ≤ 0, rate < 0
or term < 1 with an error before any computation (no partial schedule);
`compound_interest` validates before its loop as well, but only rejects
strictly negative values — principal < 0, rate < 0, term < 0 or
contribution < 0 — and accepts principal = 0 and term = 0. -/
theorem validation_fail_fast :
    (∀ (la ar : ℚ) (m : ℤ) (sys : String), la ≤ 0 ∨ ar < 0 ∨ m < 1 →
      loan_calculator la ar m sys = .error .invalidParameters) ∧
    (∀ (p r c : ℚ) (t : ℤ), p < 0 ∨ r < 0 ∨ t < 0 ∨ c < 0 →
      compound_interest p r t c = .error .valuesMustBePositive) ∧
    (∀ (p r c : ℚ) (t : ℤ), 0 ≤ p → 0 ≤ r → 0 ≤ t → 0 ≤ c →
      compound_interest p r t c = .ok (compoundResult p r t.toNat c)) := by
  refine ⟨?_, ?_, ?_⟩
  · intro la ar m sys h
    rw [loan_calculator, if_pos]
    rcases h with h | h | h
    · exact Or.inl h
    · exact Or.inr (Or.inl h)
    · exact Or.inr (Or.inr (by omega))
  · intro p r c t h
    rw [compound_interest, if_pos]
    rcases h with h | h | h | h
    · exact Or.inl h
    · exact Or.inr (Or.inl h)
    · exact Or.inr (Or.inr (Or.inl h))
    · exact Or.inr (Or.inr (Or.inr h))
  · intro p r c t hp hr ht hc
    exact compound_interest_ok p r t c hp hr ht hc

/-- Claim C1: for a `compound_interest` call passing validation with
term n ≥ 1, the recorded contribution is `c` in every period before the
last and 0 in period n, each period's balance is the previous balance
grown by the periodic rate plus that period's recorded contribution,
`total_invested` is principal + c·(n − 1), and `total_interest` is the
final balance minus `total_invested`. -/
theorem compound_contribution_schedule (P r c : ℚ) (n : ℕ)
    (hP : 0 ≤ P) (hr : 0 ≤ r) (hc : 0 ≤ c) (hn : 1 ≤ n) :
    compound_interest P r (n : ℤ) c = .ok (compoundResult P r n c) ∧
    (compoundResult P r n c).monthly_breakdown.length = n ∧
    (∀ i, i + 1 < n →
      ((compoundResult P r n c).monthly_breakdown.getD i
        default).contribution = c) ∧
    ((compoundResult P r n c).monthly_breakdown.getD (n - 1)
      default).contribution = 0 ∧
    (compoundResult P r n c).total_invested = P + c * ((n : ℚ) - 1) ∧
    (compoundResult P r n c).total_interest =
      (compoundResult P r n c).final_amount -
        (compoundResult P r n c).total_invested ∧
    ((compoundResult P r n c).monthly_breakdown.getD 0 default).balance =
      P * (1 + r / 100 / 12) +
        ((compoundResult P r n c).monthly_breakdown.getD 0
          default).contribution ∧
    (∀ i, i + 1 < n →
      ((compoundResult P r n c).monthly_breakdown.getD (i + 1)
          default).balance =
        ((compoundResult P r n c).monthly_breakdown.getD i default).balance *
            (1 + r / 100 / 12) +
          ((compoundResult P r n c).monthly_breakdown.getD (i + 1)
            default).contribution) := by
  have hok : compound_interest P r (n : ℤ) c = .ok (compoundResult P r n c) := by
    rw [compound_interest_ok P r (n : ℤ) c hP hr (Int.natCast_nonneg n) hc]
    simp
  refine ⟨hok, ?_, ?_, ?_, ?_, rfl, ?_, ?_⟩
  · simp only [compoundResult]
    exact ciLoop_length _ _ n n P P 1
  · intro i hi
    simp only [compoundResult]
    rw [ciLoop_getD_contribution _ _ n n P P 1 i (by omega),
      if_pos (by omega : 1 + i < n)]
  · simp only [compoundResult]
    rw [ciLoop_getD_contribution _ _ n n P P 1 (n - 1) (by omega),
      if_neg (by omega : ¬ 1 + (n - 1) < n)]
  · simp only [compoundResult]
    rw [ciLoop_invested _ _ n n P P 1 (by omega)]
    have : ((n - 1 : ℕ) : ℚ) = (n : ℚ) - 1 := by push_cast [hn]; ring
    rw [this]
  · simp only [compoundResult]
    rw [ciLoop_getD_balance_zero _ _ n n P P 1 (by omega),
      ciLoop_getD_contribution _ _ n n P P 1 0 (by omega)]
    have : 1 + 0 = 1 := rfl
    rw [this]
    ring
  · intro i hi
    simp only [compoundResult]
    rw [ciLoop_getD_balance_succ _ _ n n P P 1 i (by omega),
      ciLoop_getD_contribution _ _ n n P P 1 (i + 1) (by omega)]
    have : 1 + (i + 1) = 1 + i + 1 := by omega
    rw [this]
    ring

/-- Claim C9: for a `compound_interest` call with principal ≥ 0,
rate ≥ 0 and contribution ≥ 0, the per-period balance sequence of the
projection is non-decreasing and its first balance is ≥ the principal. -/
theorem compound_balance_monotone (P r c : ℚ) (n : ℕ)
    (hP : 0 ≤ P) (hr : 0 ≤ r) (hc : 0 ≤ c) :
    compound_interest P r (n : ℤ) c = .ok (compoundResult P r n c) ∧
    (0 < n →
      P ≤ ((compoundResult P r n c).monthly_breakdown.getD 0
        default).balance) ∧
    (∀ i, i + 1 < (compoundResult P r n c).monthly_breakdown.length →
      ((compoundResult P r n c).monthly_breakdown.getD i default).balance ≤
        ((compoundResult P r n c).monthly_breakdown.getD (i + 1)
          default).balance) := by
  have hmr : 0 ≤ r / 100 / 12 := by positivity
  have hok : compound_interest P r (n : ℤ) c = .ok (compoundResult P r n c) := by
    rw [compound_interest_ok P r (n : ℤ) c hP hr (Int.natCast_nonneg n) hc]
    simp
  refine ⟨hok, ?_, ?_⟩
  · intro hn
    simp only [compoundResult]
    exact ciLoop_balance_lb c _ n hmr hc n P P 1 0 hP hn
  · intro i hi
    simp only [compoundResult,
      ciLoop_length c (r / 100 / 12) n n P P 1] at hi ⊢
    exact ciLoop_balance_mono c _ n hmr hc n P P 1 i hP hi

/-- Claim C6: `retirement_calculator` fails with the age-range error
exactly when retirementAge ≤ currentAge; otherwise (for inputs passing
the delegate's validation) it projects via `compound_interest` over
exactly (retirementAge − currentAge)·12 months — an exact integer, with
a breakdown of exactly that many periods — and reports an estimated
monthly income of finalBalance · 0.04 / 12 (0.04 = 4/100 exactly). -/
theorem retirement_forward (ca ra : ℤ) (mc er cs : ℚ) :
    (retirement_calculator ca ra mc er cs = .error .invalidAgeRange ↔
      ra ≤ ca) ∧
    (ca < ra → 0 ≤ mc → 0 ≤ er → 0 ≤ cs →
      retirement_calculator ca ra mc er cs = .ok
        { years_until_retirement := ra - ca
          total_contributions :=
            (compoundResult cs er ((ra - ca) * 12).toNat mc).total_invested
          investment_growth :=
            (compoundResult cs er ((ra - ca) * 12).toNat mc).total_interest
          retirement_fund :=
            (compoundResult cs er ((ra - ca) * 12).toNat mc).final_amount
          estimated_monthly_income :=
            (compoundResult cs er ((ra - ca) * 12).toNat mc).final_amount *
              (4 / 100) / 12
          total_return_percentage :=
            if 0 < (compoundResult cs er
                ((ra - ca) * 12).toNat mc).total_invested then
              (compoundResult cs er ((ra - ca) * 12).toNat mc).total_interest /
                (compoundResult cs er
                  ((ra - ca) * 12).toNat mc).total_invested * 100
            else 0 } ∧
      ((((ra - ca) * 12).toNat : ℤ) = (ra - ca) * 12) ∧
      (compoundResult cs er
          ((ra - ca) * 12).toNat mc).monthly_breakdown.length =
        ((ra - ca) * 12).toNat) := by
  by_cases hage : ra ≤ ca
  · refine ⟨⟨fun _ => hage, fun _ => ?_⟩, fun h => absurd hage (not_le.mpr h)⟩
    simp only [retirement_calculator, if_pos hage]
  · constructor
    · simp only [retirement_calculator, if_neg hage]
      cases hci : compound_interest cs er ((ra - ca) * 12) mc with
      | error e =>
        rw [compound_interest] at hci
        split at hci
        · simp only [hci]
          have he : e = CalcError.valuesMustBePositive :=
            ((Except.error.injEq _ _).mp hci).symm
          subst he
          simp [hage]
        · exact absurd hci (by simp)
      | ok res =>
        simp only [hci]
        simp [hage]
    · intro h hmc her hcs
      have hok : compound_interest cs er ((ra - ca) * 12) mc =
          .ok (compoundResult cs er ((ra - ca) * 12).toNat mc) :=
        compound_interest_ok cs er ((ra - ca) * 12) mc hcs her (by omega) hmc
      refine ⟨?_, Int.toNat_of_nonneg (by omega), ?_⟩
      · simp only [retirement_calculator, if_neg hage, hok]
      · simp only [compoundResult]
        exact ciLoop_length _ _ _ _ cs cs 1

/-! ### Claim theorems: back-solve retirement mode -/

/-- Claim C7, counterexample to the claim as stated: in
`calcular_aposentadoria` the division of the required corpus by the real
monthly rate is not guarded, so with taxa_rendimento = taxa_inflacao = 4
(real rate exactly 0) the computation raises `ZeroDivisionError` instead
of falling back to desiredMonthlyIncome · monthsInRetirement. -/
theorem aposentadoria_zero_real_rate_raises :
    calcular_aposentadoria 30 65 5000 0 4 4 85 = .error .divisionByZero := by
  norm_num [calcular_aposentadoria]

/-- Claim C7, amended: in `calculate_retirement_savings` the corpus
division is guarded, but by `realRate > 0`, not `realRate ≠ 0`: for a
positive real monthly rate the required corpus is the annuity
present-value formula, and for real rate ≤ 0 (zero included) the linear
fallback desiredMonthlyIncome · monthsInRetirement is used, with no
division by zero.  In `calcular_aposentadoria` the corpus division is
unguarded and a real monthly rate of exactly 0 raises
`ZeroDivisionError`. -/
theorem retirement_backsolve_corpus :
    (∀ (ca ra : ℤ) (inc ar inf : ℚ), ca < ra → 1 + inf / 100 ≠ 0 →
      (0 < ((1 + ar / 100) / (1 + inf / 100) - 1) * 100 / 100 / 12 →
        ∃ res, calculate_retirement_savings ca ra inc ar inf = .ok res ∧
          res.capital_needed = inc *
            ((1 - (1 + ((1 + ar / 100) / (1 + inf / 100) - 1) * 100 / 100 / 12)
                ^ (-((85 - ra) * 12))) /
              (((1 + ar / 100) / (1 + inf / 100) - 1) * 100 / 100 / 12))) ∧
      (((1 + ar / 100) / (1 + inf / 100) - 1) * 100 / 100 / 12 ≤ 0 →
        ∃ res, calculate_retirement_savings ca ra inc ar inf = .ok res ∧
          res.capital_needed = inc * (((85 - ra) * 12 : ℤ) : ℚ))) ∧
    (∀ (ia iap : ℤ) (renda valor tr ti : ℚ) (ev : ℤ), ia < iap →
      1 + ti / 100 ≠ 0 →
      ((1 + tr / 100) / (1 + ti / 100) - 1) * 100 / 12 / 100 = 0 →
      calcular_aposentadoria ia iap renda valor tr ti ev =
        .error .divisionByZero) := by
  constructor
  · intro ca ra inc ar inf hage hinf
    constructor
    · intro hmr
      simp only [calculate_retirement_savings, if_neg hinf]
      rcases lt_or_le 0 (ar / 100 / 12) with hmrs | hmrs
      · have hms : (0:ℤ) < (ra - ca) * 12 := by omega
        have hpow : 1 < (1 + ar / 100 / 12) ^ ((ra - ca) * 12) :=
          one_lt_one_add_zpow _ hmrs _ hms
        have hne : (1 + ar / 100 / 12) ^ ((ra - ca) * 12) - 1 ≠ 0 :=
          sub_ne_zero.mpr (ne_of_gt hpow)
        rw [if_pos hmrs, if_neg hne]
        exact ⟨_, rfl, by rw [if_pos hmr]⟩
      · have hms0 : (((ra - ca) * 12 : ℤ) : ℚ) ≠ 0 := by
          have h : (0:ℤ) < (ra - ca) * 12 := by omega
          exact_mod_cast h.ne'
        rw [if_neg (not_lt.mpr hmrs), if_neg hms0]
        exact ⟨_, rfl, by rw [if_pos hmr]⟩
    · intro hmr
      simp only [calculate_retirement_savings, if_neg hinf]
      rcases lt_or_le 0 (ar / 100 / 12) with hmrs | hmrs
      · have hms : (0:ℤ) < (ra - ca) * 12 := by omega
        have hpow : 1 < (1 + ar / 100 / 12) ^ ((ra - ca) * 12) :=
          one_lt_one_add_zpow _ hmrs _ hms
        have hne : (1 + ar / 100 / 12) ^ ((ra - ca) * 12) - 1 ≠ 0 :=
          sub_ne_zero.mpr (ne_of_gt hpow)
        rw [if_pos hmrs, if_neg hne]
        exact ⟨_, rfl, by rw [if_neg (not_lt.mpr hmr)]⟩
      · have hms0 : (((ra - ca) * 12 : ℤ) : ℚ) ≠ 0 := by
          have h : (0:ℤ) < (ra - ca) * 12 := by omega
          exact_mod_cast h.ne'
        rw [if_neg (not_lt.mpr hmrs), if_neg hms0]
        exact ⟨_, rfl, by rw [if_neg (not_lt.mpr hmr)]⟩
  · intro ia iap renda valor tr ti ev hage hinf h0
    simp only [calcular_aposentadoria, if_neg (not_le.mpr hage), if_neg hinf]
    rw [if_pos h0]

/-- Claim C8, counterexample to the claim as stated: with a negative
real rate (return 0%, inflation 100%) and large current savings
(ages 64 → 65, life expectancy 66, desired income 1000, savings
1000000), the fallback branch of `calcular_aposentadoria` returns a
strictly negative required monthly contribution. -/
theorem aposentadoria_negative_contribution :
    ((calcular_aposentadoria 64 65 1000 1000000 0 100
        66).toOption.map AposentadoriaResult.aporte_mensal_necessario).getD 0
      < 0 := by
  norm_num [calcular_aposentadoria, Except.toOption]

/-- Claim C8, amended: in the positive-real-rate branch of
`calcular_aposentadoria` the required monthly contribution is never
negative, and it is exactly 0 whenever the projected future value of
current savings already meets the required corpus; in the fallback
branch (reached only with a strictly negative real rate, since a zero
real rate raises), the contribution is
(corpus − currentSavings)/months, which is negative whenever current
savings exceed the required corpus. -/
theorem aposentadoria_contribution_nonneg (ia iap : ℤ)
    (renda valor tr ti : ℚ) (ev : ℤ) (hage : ia < iap)
    (hinf : 1 + ti / 100 ≠ 0)
    (htrm : 0 < ((1 + tr / 100) / (1 + ti / 100) - 1) * 100 / 12 / 100) :
    ∃ res, calcular_aposentadoria ia iap renda valor tr ti ev = .ok res ∧
      0 ≤ res.aporte_mensal_necessario ∧
      (res.montante_necessario ≤
          valor * (1 + ((1 + tr / 100) / (1 + ti / 100) - 1) * 100 / 12 / 100)
            ^ ((iap - ia) * 12) →
        res.aporte_mensal_necessario = 0) := by
  have hM0 : ¬(((1 + tr / 100) / (1 + ti / 100) - 1) * 100 / 12 / 100 = 0) :=
    ne_of_gt htrm
  have h1M : ¬(1 + ((1 + tr / 100) / (1 + ti / 100) - 1) * 100 / 12 / 100 = 0 ∧
      0 < (ev - iap) * 12) := by
    rintro ⟨h, -⟩
    linarith
  simp only [calcular_aposentadoria, if_neg (not_le.mpr hage), if_neg hinf,
    if_neg hM0, if_neg h1M]
  refine ⟨_, rfl, ?_, ?_⟩
  · show (0:ℚ) ≤ _
    rw [if_pos htrm]
    split
    · rename_i hf
      have hms : (0:ℤ) < (iap - ia) * 12 := by omega
      have hpow : 1 <
          (1 + ((1 + tr / 100) / (1 + ti / 100) - 1) * 100 / 12 / 100)
            ^ ((iap - ia) * 12) :=
        one_lt_one_add_zpow _ htrm _ hms
      have hden : 0 <
          ((1 + ((1 + tr / 100) / (1 + ti / 100) - 1) * 100 / 12 / 100)
              ^ ((iap - ia) * 12) - 1) /
            (((1 + tr / 100) / (1 + ti / 100) - 1) * 100 / 12 / 100) := by
        apply div_pos (by linarith) htrm
      exact (div_pos hf hden).le
    · exact le_rfl
  · intro hle
    show (if 0 < ((1 + tr / 100) / (1 + ti / 100) - 1) * 100 / 12 / 100 then _
      else _) = 0
    rw [if_pos htrm]
    rw [if_neg (by push_neg; linarith)]

/-! ### Witnesses: each hypothesis-bearing claim theorem applied at a
concrete input -/

/-- Witness for `price_sum_principal` at principal 1000, periodic rate
1/100, term 2. -/
theorem price_sum_principal_witness :
    (0:ℚ) < 1000 ∧ (0:ℚ) ≤ 1/100 ∧ (1:ℕ) ≤ 2 ∧
    ((((calculate_price 1000 (1/100) 2).installments.map
        InstallmentRecord.principal).sum = 1000) ∧
      |((calculate_price 1000 (1/100) 2).installments.map
          InstallmentRecord.principal).sum - 1000| ≤ 1000 * (1 / 1000000)) :=
  ⟨by norm_num, by norm_num, by norm_num,
    price_sum_principal 1000 (1/100) 2 (by norm_num) (by norm_num)
      (by norm_num)⟩

/-- Witness for `price_zero_rate_payment` at principal 1000, term 4. -/
theorem price_zero_rate_payment_witness :
    (0:ℚ) < 1000 ∧ (1:ℕ) ≤ 4 ∧
    (calculate_price 1000 0 4).monthly_payment = 1000 / ((4:ℕ) : ℚ) :=
  ⟨by norm_num, by norm_num,
    price_zero_rate_payment 1000 4 (by norm_num) (by norm_num)⟩

/-- Witness for `sac_amortization_decreasing` at principal 1000,
periodic rate 1/100, term 3. -/
theorem sac_amortization_decreasing_witness :
    (0:ℚ) < 1000 ∧ (1:ℕ) ≤ 3 ∧
    ((∀ i, i < (calculate_sac 1000 (1/100) 3).installments.length →
      ((calculate_sac 1000 (1/100) 3).installments.getD i default).principal
        = 1000 / ((3:ℕ) : ℚ)) ∧
    ((0:ℚ) < 1/100 → ∀ i,
      i + 1 < (calculate_sac 1000 (1/100) 3).installments.length →
      ((calculate_sac 1000 (1/100) 3).installments.getD (i + 1)
          default).payment <
        ((calculate_sac 1000 (1/100) 3).installments.getD i
          default).payment)) :=
  ⟨by norm_num, by norm_num,
    sac_amortization_decreasing 1000 (1/100) 3 (by norm_num) (by norm_num)⟩

/-- Witness for `sac_mean_payment` at principal 1200, periodic rate
1/100, term 2. -/
theorem sac_mean_payment_witness :
    (0:ℚ) < 1200 ∧ (2:ℕ) ≤ 2 ∧
    (((calculate_sac 1200 (1/100) 2).monthly_payment =
      ((calculate_sac 1200 (1/100) 2).installments.map
        InstallmentRecord.payment).sum / ((2:ℕ) : ℚ)) ∧
    ((calculate_sac 1200 (1/100) 2).installments.length = 2) ∧
    ((0:ℚ) < 1/100 →
      ((calculate_sac 1200 (1/100) 2).installments.getD (2 - 1)
          default).payment < (calculate_sac 1200 (1/100) 2).monthly_payment ∧
        (calculate_sac 1200 (1/100) 2).monthly_payment <
          ((calculate_sac 1200 (1/100) 2).installments.getD 0
            default).payment)) :=
  ⟨by norm_num, by norm_num,
    sac_mean_payment 1200 (1/100) 2 (by norm_num) (by norm_num)⟩

/-- Witness for `validation_fail_fast`: a rejected loan request, a
rejected negative-principal projection, and an accepted in-range
projection. -/
theorem validation_fail_fast_witness :
    loan_calculator (-5) 10 12 "PRICE" = .error .invalidParameters ∧
    compound_interest (-1) 5 12 0 = .error .valuesMustBePositive ∧
    compound_interest 1000 5 12 100 =
      .ok (compoundResult 1000 5 ((12:ℤ)).toNat 100) :=
  ⟨validation_fail_fast.1 (-5) 10 12 "PRICE" (Or.inl (by norm_num)),
    validation_fail_fast.2.1 (-1) 5 0 12 (Or.inl (by norm_num)),
    validation_fail_fast.2.2 1000 5 100 12 (by norm_num) (by norm_num)
      (by norm_num) (by norm_num)⟩

/-- Witness for `compound_contribution_schedule` at principal 1000,
rate 0, contribution 100, term 3. -/
theorem compound_contribution_schedule_witness :
    (0:ℚ) ≤ 1000 ∧ (0:ℚ) ≤ 0 ∧ (0:ℚ) ≤ 100 ∧ (1:ℕ) ≤ 3 ∧
    (compound_interest 1000 0 ((3:ℕ) : ℤ) 100 =
      .ok (compoundResult 1000 0 3 100) ∧
    (compoundResult 1000 0 3 100).monthly_breakdown.length = 3 ∧
    (∀ i, i + 1 < 3 →
      ((compoundResult 1000 0 3 100).monthly_breakdown.getD i
        default).contribution = 100) ∧
    ((compoundResult 1000 0 3 100).monthly_breakdown.getD (3 - 1)
      default).contribution = 0 ∧
    (compoundResult 1000 0 3 100).total_invested =
      1000 + 100 * (((3:ℕ) : ℚ) - 1) ∧
    (compoundResult 1000 0 3 100).total_interest =
      (compoundResult 1000 0 3 100).final_amount -
        (compoundResult 1000 0 3 100).total_invested ∧
    ((compoundResult 1000 0 3 100).monthly_breakdown.getD 0
        default).balance =
      1000 * (1 + 0 / 100 / 12) +
        ((compoundResult 1000 0 3 100).monthly_breakdown.getD 0
          default).contribution ∧
    (∀ i, i + 1 < 3 →
      ((compoundResult 1000 0 3 100).monthly_breakdown.getD (i + 1)
          default).balance =
        ((compoundResult 1000 0 3 100).monthly_breakdown.getD i
              default).balance * (1 + 0 / 100 / 12) +
          ((compoundResult 1000 0 3 100).monthly_breakdown.getD (i + 1)
            default).contribution)) :=
  ⟨by norm_num, le_rfl, by norm_num, by norm_num,
    compound_contribution_schedule 1000 0 100 3 (by norm_num) le_rfl
      (by norm_num) (by norm_num)⟩

/-- Witness for `compound_balance_monotone` at principal 1000, rate 12,
contribution 100, term 3. -/
theorem compound_balance_monotone_witness :
    (0:ℚ) ≤ 1000 ∧ (0:ℚ) ≤ 12 ∧ (0:ℚ) ≤ 100 ∧
    (compound_interest 1000 12 ((3:ℕ) : ℤ) 100 =
      .ok (compoundResult 1000 12 3 100) ∧
    (0 < 3 →
      1000 ≤ ((compoundResult 1000 12 3 100).monthly_breakdown.getD 0
        default).balance) ∧
    (∀ i, i + 1 < (compoundResult 1000 12 3 100).monthly_breakdown.length →
      ((compoundResult 1000 12 3 100).monthly_breakdown.getD i
          default).balance ≤
        ((compoundResult 1000 12 3 100).monthly_breakdown.getD (i + 1)
          default).balance)) :=
  ⟨by norm_num, by norm_num, by norm_num,
    compound_balance_monotone 1000 12 100 3 (by norm_num) (by norm_num)
      (by norm_num)⟩

/-- Witness for `retirement_forward` at ages 30 → 65 (420 months) with
zero contribution, return and savings. -/
theorem retirement_forward_witness :
    (retirement_calculator 30 65 0 0 0 = .error .invalidAgeRange ↔
      (65:ℤ) ≤ 30) ∧
    ((30:ℤ) < 65 → (0:ℚ) ≤ 0 → (0:ℚ) ≤ 0 → (0:ℚ) ≤ 0 →
      retirement_calculator 30 65 0 0 0 = .ok
        { years_until_retirement := 65 - 30
          total_contributions :=
            (compoundResult 0 0 (((65:ℤ) - 30) * 12).toNat 0).total_invested
          investment_growth :=
            (compoundResult 0 0 (((65:ℤ) - 30) * 12).toNat 0).total_interest
          retirement_fund :=
            (compoundResult 0 0 (((65:ℤ) - 30) * 12).toNat 0).final_amount
          estimated_monthly_income :=
            (compoundResult 0 0 (((65:ℤ) - 30) * 12).toNat 0).final_amount *
              (4 / 100) / 12
          total_return_percentage :=
            if 0 < (compoundResult 0 0
                (((65:ℤ) - 30) * 12).toNat 0).total_invested then
              (compoundResult 0 0
                  (((65:ℤ) - 30) * 12).toNat 0).total_interest /
                (compoundResult 0 0
                  (((65:ℤ) - 30) * 12).toNat 0).total_invested * 100
            else 0 } ∧
      (((((65:ℤ) - 30) * 12).toNat : ℤ) = ((65:ℤ) - 30) * 12) ∧
      (compoundResult 0 0
          (((65:ℤ) - 30) * 12).toNat 0).monthly_breakdown.length =
        (((65:ℤ) - 30) * 12).toNat) :=
  retirement_forward 30 65 0 0 0

/-- Witness for `retirement_backsolve_corpus`: positive real rate
(return 6%, inflation 3.5%), non-positive real rate (return 2%,
inflation 4%), and a zero real rate in `calcular_aposentadoria`
(return 5%, inflation 5%). -/
theorem retirement_backsolve_corpus_witness :
    (∃ res, calculate_retirement_savings 30 65 1000 6 (7/2) = .ok res ∧
      res.capital_needed = 1000 *
        ((1 - (1 + ((1 + 6 / 100) / (1 + (7/2) / 100) - 1) * 100 / 100 / 12)
            ^ (-((85 - (65:ℤ)) * 12))) /
          (((1 + 6 / 100) / (1 + (7/2) / 100) - 1) * 100 / 100 / 12))) ∧
    (∃ res, calculate_retirement_savings 30 65 1000 2 4 = .ok res ∧
      res.capital_needed = 1000 * (((85 - (65:ℤ)) * 12 : ℤ) : ℚ)) ∧
    calcular_aposentadoria 30 65 5000 0 5 5 85 = .error .divisionByZero :=
  ⟨(retirement_backsolve_corpus.1 30 65 1000 6 (7/2) (by norm_num)
      (by norm_num)).1 (by norm_num),
    (retirement_backsolve_corpus.1 30 65 1000 2 4 (by norm_num)
      (by norm_num)).2 (by norm_num),
    retirement_backsolve_corpus.2 30 65 5000 0 5 5 85 (by norm_num)
      (by norm_num) (by norm_num)⟩

/-- Witness for `aposentadoria_contribution_nonneg` at ages 64 → 65,
life expectancy 66, desired income 1000, savings 0, return 100%,
inflation 0%. -/
theorem aposentadoria_contribution_nonneg_witness :
    (64:ℤ) < 65 ∧ (1:ℚ) + 0 / 100 ≠ 0 ∧
    (0:ℚ) < ((1 + 100 / 100) / (1 + 0 / 100) - 1) * 100 / 12 / 100 ∧
    (∃ res, calcular_aposentadoria 64 65 1000 0 100 0 66 = .ok res ∧
      0 ≤ res.aporte_mensal_necessario ∧
      (res.montante_necessario ≤
          0 * (1 + ((1 + 100 / 100) / (1 + 0 / 100) - 1) * 100 / 12 / 100)
            ^ (((65:ℤ) - 64) * 12) →
        res.aporte_mensal_necessario = 0)) :=
  ⟨by norm_num, by norm_num, by norm_num,
    aposentadoria_contribution_nonneg 64 65 1000 0 100 0 66 (by norm_num)
      (by norm_num) (by norm_num)⟩

end FinAssist
